import Mathlib

/-!
Verification of the COCOMO Intermediate ('81) estimation tool (src/app.py).

The numeric engine `calculate_cocomo` is embedded shallowly: Python floats
are modelled as exact rationals for inputs and exact reals for the
computation (the exponents of the model are non-integral, so `Real.rpow`
models the float `**`).  Fallible Python behaviour is made explicit:

* `float(value)` on a form value is `pyFloat` (TypeError on `None`,
  ValueError on a non-numeric string);
* float division by zero raises ZeroDivisionError, so the engine embedding
  returns that error exactly when the Python code would raise;
* a negative float raised to a non-integral power yields a `complex` in
  Python, and `round()` on the resulting complex raises TypeError at the
  construction of the result dict; the embedding returns that error on the
  corresponding branch (with the one exception that a complex zero base,
  arising when kloc < 0 and eaf = 0, instead hits complex division by zero);
* `round(x, n)` is Python rounding: ties to even, `pyround` / `pyroundQ`;
* the template render runs outside the try/except of the route handler,
  and its effort-vs-time chart divides by effort_pm + duration_months, so
  rendering a results page raises ZeroDivisionError when both rounded
  fields are zero (`renderPage` / `index_view`).
-/

namespace Cocomo

/-- Mode constants [a, b, c, d] for E = a * KLOC^b and D = c * E^d. -/
structure ModeParams where
  a : ℚ
  b : ℚ
  c : ℚ
  d : ℚ
deriving DecidableEq

/-- The COCOMO_PARAMS dict of src/app.py: lookup raises KeyError (modelled
as `none`) for any key other than the three modes. -/
def COCOMO_PARAMS (s : String) : Option ModeParams :=
  if s = "organic" then some ⟨2.4, 1.05, 2.5, 0.38⟩
  else if s = "semidetached" then some ⟨3.0, 1.12, 2.5, 0.35⟩
  else if s = "embedded" then some ⟨3.6, 1.20, 2.5, 0.32⟩
  else none

/-- An entry of the COST_DRIVERS_DATA dict: display name, the ordered
level-to-multiplier mapping, and the default (nominal) multiplier. -/
structure DriverDef where
  name : String
  levels : List (String × ℚ)
  default : ℚ
deriving DecidableEq

/-- The COST_DRIVERS_DATA dict of src/app.py, in insertion order. -/
def COST_DRIVERS_DATA : List (String × DriverDef) :=
  [("RELY", ⟨"Required Software Reliability",
      [("VL", 0.75), ("L", 0.88), ("N", 1.00), ("H", 1.15), ("VH", 1.40)], 1.00⟩),
   ("DATA", ⟨"Database Size/Program Size",
      [("L", 0.94), ("N", 1.00), ("H", 1.08), ("VH", 1.16)], 1.00⟩),
   ("CPLX", ⟨"Product Complexity",
      [("VL", 0.70), ("L", 0.85), ("N", 1.00), ("H", 1.15), ("VH", 1.30), ("EH", 1.65)], 1.00⟩),
   ("TOOL", ⟨"Use of Software Tools",
      [("VL", 1.24), ("L", 1.10), ("N", 1.00), ("H", 0.91), ("VH", 0.82)], 1.00⟩),
   ("VIRT", ⟨"Virtual Machine Volatility",
      [("L", 0.87), ("N", 1.00), ("H", 1.15), ("VH", 1.30)], 1.00⟩)]

/-- A raw web-form value as the handler sees it: absent (`request.form.get`
returned `None`), a string that `float()` parses to the rational `q`, or a
string `float()` rejects. -/
inductive FormVal where
  | missing : FormVal
  | numeric (q : ℚ) : FormVal
  | junk : FormVal
deriving DecidableEq

/-- Python exceptions that the code under test can raise. -/
inductive PyExc where
  | valueError : PyExc
  | typeError : PyExc
  | zeroDivisionError : PyExc
deriving DecidableEq

/-- Outcome of calculate_cocomo: either the returned error string (the
`return None, "..."` path) or a Python exception escaping the function. -/
inductive CocomoError where
  | invalidMode (msg : String) : CocomoError
  | raised (e : PyExc) : CocomoError
deriving DecidableEq

/-- The result dict built by calculate_cocomo. -/
structure CocomoResult where
  effort_pm : ℝ
  duration_months : ℝ
  avg_people : ℝ
  total_cost : ℝ
  eaf : ℝ
  kloc : ℝ
  mode : String

/-- Python float() applied to a form value: TypeError on None, ValueError
on an unparsable string. -/
def pyFloat : FormVal → Except PyExc ℚ
  | .missing => .error .typeError
  | .junk => .error .valueError
  | .numeric q => .ok q

/-- Python str.capitalize: first character uppercased, the rest lowercased. -/
def pyCapitalize (s : String) : String :=
  match s.data with
  | [] => ""
  | ch :: rest => String.mk (ch.toUpper :: rest.map Char.toLower)

section
open Classical

/-- Round to the nearest integer, ties to even: the rounding Python round()
performs (on our exact-arithmetic model of floats). -/
noncomputable def roundTE (x : ℝ) : ℤ :=
  if x - ⌊x⌋ < 1/2 then ⌊x⌋
  else if x - ⌊x⌋ > 1/2 then ⌊x⌋ + 1
  else if Even ⌊x⌋ then ⌊x⌋ else ⌊x⌋ + 1

/-- Python round(x, n) on the real model. -/
noncomputable def pyround (x : ℝ) (n : ℕ) : ℝ :=
  (roundTE (x * 10 ^ n) : ℝ) / 10 ^ n

/-- Rational (computable) copy of `roundTE`, for evaluating the rounding at
concrete inputs. -/
def roundTEQ (x : ℚ) : ℤ :=
  if x - ⌊x⌋ < 1/2 then ⌊x⌋
  else if x - ⌊x⌋ > 1/2 then ⌊x⌋ + 1
  else if Even ⌊x⌋ then ⌊x⌋ else ⌊x⌋ + 1

/-- Rational (computable) copy of `pyround`. -/
def pyroundQ (x : ℚ) (n : ℕ) : ℚ :=
  (roundTEQ (x * 10 ^ n) : ℚ) / 10 ^ n

/-- The EAF loop of calculate_cocomo: `for value in drivers.values():
eaf *= float(value)`, where `float` can raise. -/
def foldEAF : List (String × FormVal) → ℚ → Except PyExc ℚ
  | [], acc => .ok acc
  | (_, v) :: rest, acc =>
    match pyFloat v with
    | .error e => .error e
    | .ok q => foldEAF rest (acc * q)

/-- Exact value of `effort_pm = a * (float(kloc) ** b_exp) * eaf`. -/
noncomputable def effortExact (p : ModeParams) (kloc eaf : ℚ) : ℝ :=
  (p.a : ℝ) * (kloc : ℝ) ^ (p.b : ℝ) * (eaf : ℝ)

/-- Exact value of `duration_months = c * (effort_pm ** d_exp)`. -/
noncomputable def durationExact (p : ModeParams) (effort : ℝ) : ℝ :=
  (p.c : ℝ) * effort ^ (p.d : ℝ)

/-- Body of calculate_cocomo after the EAF loop: parameter lookup (the
KeyError path returns the invalid-mode message), then the effort, duration,
staffing and cost formulas, each result rounded exactly as in the source.
The error branches model where the Python floating computation raises: a
negative base under a fractional power goes complex and round() then raises
TypeError, and a zero duration makes `effort_pm / duration_months` raise
ZeroDivisionError. -/
noncomputable def cocomoCore (kloc : ℚ) (mode : Option String) (eaf salary : ℚ) :
    Except CocomoError CocomoResult :=
  match mode with
  | none => .error (.invalidMode "Invalid project mode selected.")
  | some s =>
    match COCOMO_PARAMS s with
    | none => .error (.invalidMode "Invalid project mode selected.")
    | some p =>
      if kloc < 0 then
        if eaf = 0 then .error (.raised .zeroDivisionError)
        else .error (.raised .typeError)
      else if effortExact p kloc eaf < 0 then .error (.raised .typeError)
      else if durationExact p (effortExact p kloc eaf) = 0 then
        .error (.raised .zeroDivisionError)
      else
        .ok { effort_pm := pyround (effortExact p kloc eaf) 2,
              duration_months := pyround (durationExact p (effortExact p kloc eaf)) 2,
              avg_people :=
                pyround (effortExact p kloc eaf / durationExact p (effortExact p kloc eaf)) 2,
              total_cost := pyround (effortExact p kloc eaf * (salary : ℝ)) 0,
              eaf := pyround (eaf : ℝ) 3,
              kloc := (kloc : ℝ),
              mode := pyCapitalize s }

/-- calculate_cocomo of src/app.py: the EAF product loop runs first (an
exception from float() escapes to the caller), then the rest of the body. -/
noncomputable def calculate_cocomo (kloc : ℚ) (mode : Option String)
    (drivers : List (String × FormVal)) (salary : ℚ) : Except CocomoError CocomoResult :=
  match foldEAF drivers 1 with
  | .error e => .error (.raised e)
  | .ok eaf => cocomoCore kloc mode eaf salary

/-- The page the POST branch of `index` renders: the results dict and the
error message, each possibly absent. -/
structure Page where
  results : Option CocomoResult
  error : Option String

/-- The raw POST form: the two numeric fields, the mode radio value, and
the five cost-driver selects, exactly the keys `index` reads. -/
structure Form where
  kloc : FormVal
  salary : FormVal
  mode : Option String
  RELY : FormVal
  DATA : FormVal
  CPLX : FormVal
  TOOL : FormVal
  VIRT : FormVal

/-- The drivers dict `index` builds: one entry per catalog key, in the
insertion order of COST_DRIVERS_DATA, holding the raw form value. -/
def driversOf (f : Form) : List (String × FormVal) :=
  [("RELY", f.RELY), ("DATA", f.DATA), ("CPLX", f.CPLX), ("TOOL", f.TOOL), ("VIRT", f.VIRT)]

/-- Message of the `except (ValueError, TypeError)` handler in `index`. -/
def numericFieldsMsg : String := "Please ensure all numerical fields are filled correctly."

/-- Message of the `except Exception` handler in `index` (its f-string,
abstracting the interpolated exception text). -/
def serverErrorMsg : String := "A server error occurred."

/-- Body of the try/except in the POST branch of `index`: parse kloc and
salary with float() (a ValueError/TypeError lands in the first except
clause), check positivity, call the engine, and map each engine outcome to
the page data handed to the template.  A ValueError/TypeError raised
inside the engine is caught by the first except clause, any other
exception by the second.  The subsequent render_template_string call is
outside the try/except and is modelled separately by `renderPage`. -/
noncomputable def index_post (f : Form) : Page :=
  match pyFloat f.kloc with
  | .error _ => { results := none, error := some numericFieldsMsg }
  | .ok kloc =>
    match pyFloat f.salary with
    | .error _ => { results := none, error := some numericFieldsMsg }
    | .ok salary =>
      if kloc ≤ 0 ∨ salary ≤ 0 then
        { results := none, error := some "KLOC and Salary must be positive numbers." }
      else
        match calculate_cocomo kloc f.mode (driversOf f) salary with
        | .ok r => { results := some r, error := none }
        | .error (.invalidMode msg) => { results := none, error := some msg }
        | .error (.raised .valueError) => { results := none, error := some numericFieldsMsg }
        | .error (.raised .typeError) => { results := none, error := some numericFieldsMsg }
        | .error (.raised .zeroDivisionError) => { results := none, error := some serverErrorMsg }

/-- The template render (src/app.py lines 110 and 288-290): with a results
dict present, the effort-vs-time chart sets total = effort_pm +
duration_months and then computes (effort_pm / total) * 100, a float
division that raises ZeroDivisionError when total is zero; without results
the chart block is skipped.  render_template_string runs outside the
try/except of `index`, so the raised error escapes the view function. -/
noncomputable def renderPage (pg : Page) : Except PyExc Page :=
  match pg.results with
  | none => .ok pg
  | some r =>
    if r.effort_pm + r.duration_months = 0 then .error .zeroDivisionError
    else .ok pg

/-- The whole POST request handling of `index`: the try/except body builds
the page data, then the template renders it; a template exception escapes
the handler (the framework turns it into a 500, not a rendered page). -/
noncomputable def index_view (f : Form) : Except PyExc Page :=
  renderPage (index_post f)

/-- First component (the results dict) of the engine return, when the call
returns normally. -/
def effortOf : Except CocomoError CocomoResult → Option ℝ
  | .ok r => some r.effort_pm
  | .error _ => none

/-- Duration field of a normal engine return. -/
def durationOf : Except CocomoError CocomoResult → Option ℝ
  | .ok r => some r.duration_months
  | .error _ => none

/-- Average-staffing field of a normal engine return. -/
def avgOf : Except CocomoError CocomoResult → Option ℝ
  | .ok r => some r.avg_people
  | .error _ => none

/-- EAF field of a normal engine return. -/
def eafOf : Except CocomoError CocomoResult → Option ℝ
  | .ok r => some r.eaf
  | .error _ => none

/-- Whether the engine call returned a results dict at all. -/
def exceptOk : Except CocomoError CocomoResult → Bool
  | .ok _ => true
  | .error _ => false

/-- Numeric (float-parsable) form value. -/
def FormVal.isNumeric : FormVal → Bool
  | .numeric _ => true
  | _ => false

/-- Every entry of the drivers dict parses as a float. -/
def allNumericB (ds : List (String × FormVal)) : Bool :=
  ds.all fun kv => kv.2.isNumeric

/-- The rational a numeric form value denotes (zero on the other shapes,
which `allNumericB` rules out where it matters). -/
def valQ : FormVal → ℚ
  | .numeric q => q
  | _ => 0

/-- Product of the values of the drivers dict. -/
def prodV (ds : List (String × FormVal)) : ℚ :=
  (ds.map fun kv => valQ kv.2).prod

/-- Catalog lookup by driver key. -/
def lookupDriver (k : String) : Option DriverDef :=
  (COST_DRIVERS_DATA.find? fun e => e.1 == k).map (fun e => e.2)

/-- A supplied driver entry is valid in the sense of the spec: its key is a
catalog key and its value is one of that key's defined level multipliers. -/
def validDriverPair (k : String) (v : FormVal) : Bool :=
  match lookupDriver k, v with
  | some dd, .numeric q => dd.levels.any fun lv => lv.2 == q
  | _, _ => false

/-- Every supplied driver entry is valid in the sense of the spec. -/
def validDriversB (ds : List (String × FormVal)) : Bool :=
  ds.all fun kv => validDriverPair kv.1 kv.2

/-- The five driver keys all set to the nominal multiplier 1.00. -/
def nominalFive : List (String × FormVal) :=
  [("RELY", .numeric 1), ("DATA", .numeric 1), ("CPLX", .numeric 1),
   ("TOOL", .numeric 1), ("VIRT", .numeric 1)]

/-- Selection with RELY very low (0.75) and DATA low (0.94), rest nominal:
its exact effort at sizeKLOC = 1 under organic mode is 1.692, which the
engine rounds. -/
def c1drivers : List (String × FormVal) :=
  [("RELY", .numeric 0.75), ("DATA", .numeric 0.94), ("CPLX", .numeric 1),
   ("TOOL", .numeric 1), ("VIRT", .numeric 1)]

/-- Selection with RELY low (0.88) and DATA low (0.94), rest nominal: its
EAF is 0.8272, which the engine rounds to three decimals. -/
def c2drivers : List (String × FormVal) :=
  [("RELY", .numeric 0.88), ("DATA", .numeric 0.94), ("CPLX", .numeric 1),
   ("TOOL", .numeric 1), ("VIRT", .numeric 1)]

/-- Selection with CPLX = 2.0; 2.0 is not a defined CPLX level. -/
def c3drivers : List (String × FormVal) :=
  [("RELY", .numeric 1), ("DATA", .numeric 1), ("CPLX", .numeric 2),
   ("TOOL", .numeric 1), ("VIRT", .numeric 1)]

/-- A fully-filled form whose KLOC field parses to 0. -/
def c4form : Form :=
  { kloc := .numeric 0, salary := .numeric 8000, mode := some "organic",
    RELY := .numeric 1, DATA := .numeric 1, CPLX := .numeric 1,
    TOOL := .numeric 1, VIRT := .numeric 1 }

/-- A drivers dict with an unknown key, a zero value and a negative value:
the engine accepts all of them. -/
def c10ds : List (String × FormVal) :=
  [("NOKEY", .numeric 0), ("CPLX", .numeric (-2)), ("RELY", .numeric 3.5)]

/-- Base of the size input engineered so that both COCOMO powers of the
embedded mode land on rationals: kloc7 = u7^5, so kloc7^1.2 = u7^6. -/
def u7 : ℚ := 2 ^ 4 * 3 ^ 8 / 5 ^ 4

/-- Size input for which the embedded-mode computation is exactly rational. -/
def kloc7 : ℚ := u7 ^ 5

/-- With eaf = 1, the exact effort at kloc7 is v7^25 with v7 = 18/5, whose
0.32 = 8/25 power is again rational. -/
def v7 : ℚ := 18 / 5

/-- Exact effort at kloc7, embedded mode, all drivers nominal. -/
def E7 : ℚ := v7 ^ 25

/-- Exact duration at kloc7, embedded mode, all drivers nominal. -/
def D7 : ℚ := 5 / 2 * v7 ^ 8

/-- A second organic-mode size just above 1 whose exact effort still rounds
to 2.40 at two decimals: kloc8 = u8^20, so kloc8^1.05 = u8^21. -/
def u8 : ℚ := 10101 / 10100

/-- Size input strictly above 1 with the same rounded effort as size 1. -/
def kloc8 : ℚ := u8 ^ 20

/-- Exact effort at kloc8, organic mode, all drivers nominal. -/
def E8 : ℚ := 2.4 * u8 ^ 21

/-- A tiny positive float-parsable driver value: at size 1, organic mode,
it makes the exact effort (1/2)^50, whose 0.38 = 19/50 power is again
rational, and both returned rounded fields zero. -/
def q9 : ℚ := 5 / (12 * 2 ^ 50)

/-- Exact effort at size 1, organic mode, RELY supplied as q9. -/
def E9 : ℚ := (1 / 2 : ℚ) ^ (50 : ℕ)

/-- Exact duration for the effort E9 under the organic constants. -/
def D9 : ℚ := 5 / 2 ^ 20

/-- A fully numeric POST form (size 1, salary 8000, organic) whose RELY
value is the tiny q9: the handler accepts it, the engine succeeds, and the
returned effort and duration both round to zero. -/
def c9form : Form :=
  { kloc := .numeric 1, salary := .numeric 8000, mode := some "organic",
    RELY := .numeric q9, DATA := .numeric 1, CPLX := .numeric 1,
    TOOL := .numeric 1, VIRT := .numeric 1 }

end

/-! Helper lemmas about the embedded definitions. -/

theorem COCOMO_PARAMS_inv {s : String} {p : ModeParams} (h : COCOMO_PARAMS s = some p) :
    (s = "organic" ∧ p = ⟨2.4, 1.05, 2.5, 0.38⟩) ∨
    (s = "semidetached" ∧ p = ⟨3.0, 1.12, 2.5, 0.35⟩) ∨
    (s = "embedded" ∧ p = ⟨3.6, 1.20, 2.5, 0.32⟩) := by
  unfold COCOMO_PARAMS at h
  split_ifs at h with h1 h2 h3
  · exact Or.inl ⟨h1, (Option.some.inj h).symm⟩
  · exact Or.inr (Or.inl ⟨h2, (Option.some.inj h).symm⟩)
  · exact Or.inr (Or.inr ⟨h3, (Option.some.inj h).symm⟩)

theorem params_pos {s : String} {p : ModeParams} (h : COCOMO_PARAMS s = some p) :
    0 < p.a ∧ 0 < p.b ∧ 0 < p.c ∧ 0 < p.d := by
  rcases COCOMO_PARAMS_inv h with ⟨_, rfl⟩ | ⟨_, rfl⟩ | ⟨_, rfl⟩ <;>
    refine ⟨by norm_num, by norm_num, by norm_num, by norm_num⟩

theorem foldEAF_insert (k : String) (ds₁ ds₂ : List (String × FormVal)) (acc : ℚ) :
    foldEAF (ds₁ ++ (k, .numeric 1) :: ds₂) acc = foldEAF (ds₁ ++ ds₂) acc := by
  induction ds₁ generalizing acc with
  | nil =>
    show foldEAF ds₂ (acc * 1) = foldEAF ds₂ acc
    rw [mul_one]
  | cons hd tl ih =>
    obtain ⟨k', v⟩ := hd
    cases v with
    | missing => rfl
    | junk => rfl
    | numeric q => exact ih (acc * q)

theorem foldEAF_numeric : ∀ (ds : List (String × FormVal)) (acc : ℚ),
    allNumericB ds = true → foldEAF ds acc = .ok (acc * prodV ds)
  | [], acc, _ => by simp [foldEAF, prodV]
  | (k, v) :: tl, acc, h => by
    have h' := h
    simp only [allNumericB, List.all_cons, Bool.and_eq_true] at h'
    obtain ⟨h1, h2⟩ := h'
    cases v with
    | numeric q =>
      show foldEAF tl (acc * q) = _
      rw [foldEAF_numeric tl (acc * q) h2]
      simp [prodV, valQ, mul_assoc]
    | missing => simp [FormVal.isNumeric] at h1
    | junk => simp [FormVal.isNumeric] at h1

theorem catalog_levels_pos :
    ∀ e ∈ COST_DRIVERS_DATA, ∀ lv ∈ e.2.levels, (0:ℚ) < lv.2 := by
  simp only [COST_DRIVERS_DATA, List.forall_mem_cons, List.forall_mem_nil]
  norm_num

theorem validDriverPair_pos {k : String} {v : FormVal} (h : validDriverPair k v = true) :
    ∃ q : ℚ, v = .numeric q ∧ 0 < q := by
  unfold validDriverPair at h
  cases hl : lookupDriver k with
  | none => rw [hl] at h; cases v <;> simp at h
  | some dd =>
    rw [hl] at h
    cases v with
    | missing => simp at h
    | junk => simp at h
    | numeric q =>
      refine ⟨q, rfl, ?_⟩
      rw [List.any_eq_true] at h
      obtain ⟨lv, hmem, hbeq⟩ := h
      have hq : lv.2 = q := by exact_mod_cast beq_iff_eq.mp hbeq
      unfold lookupDriver at hl
      rw [Option.map_eq_some'] at hl
      obtain ⟨e, hfind, hdd⟩ := hl
      have he : e ∈ COST_DRIVERS_DATA := List.mem_of_find?_eq_some hfind
      have := catalog_levels_pos e he lv (by rw [hdd]; exact hmem)
      rw [hq] at this
      exact this

theorem validDrivers_allNumeric {ds : List (String × FormVal)}
    (h : validDriversB ds = true) : allNumericB ds = true := by
  rw [validDriversB, List.all_eq_true] at h
  rw [allNumericB, List.all_eq_true]
  intro kv hmem
  obtain ⟨q, hq, _⟩ := validDriverPair_pos (h kv hmem)
  rw [hq]
  rfl

theorem prodV_pos : ∀ ds : List (String × FormVal), validDriversB ds = true → 0 < prodV ds
  | [], _ => by norm_num [prodV]
  | (k, v) :: tl, h => by
    have h' := h
    simp only [validDriversB, List.all_cons, Bool.and_eq_true] at h'
    obtain ⟨h1, h2⟩ := h'
    obtain ⟨q, hq, hqpos⟩ := validDriverPair_pos h1
    have htl : 0 < prodV tl := prodV_pos tl h2
    subst hq
    simpa [prodV, valQ] using mul_pos hqpos htl

theorem effortExact_pos {p : ModeParams} {kloc eaf : ℚ}
    (ha : 0 < p.a) (hk : 0 < kloc) (he : 0 < eaf) : 0 < effortExact p kloc eaf := by
  unfold effortExact
  have h1 : (0:ℝ) < (p.a : ℝ) := by exact_mod_cast ha
  have h2 : (0:ℝ) < (kloc : ℝ) ^ (p.b : ℝ) :=
    Real.rpow_pos_of_pos (by exact_mod_cast hk) _
  have h3 : (0:ℝ) < (eaf : ℝ) := by exact_mod_cast he
  exact mul_pos (mul_pos h1 h2) h3

theorem durationExact_pos {p : ModeParams} {E : ℝ} (hc : 0 < p.c) (hE : 0 < E) :
    0 < durationExact p E := by
  unfold durationExact
  exact mul_pos (by exact_mod_cast hc) (Real.rpow_pos_of_pos hE _)

theorem roundTE_ratCast (q : ℚ) : roundTE (q : ℝ) = roundTEQ q := by
  have hfl : ⌊(q : ℝ)⌋ = ⌊q⌋ := Rat.floor_cast q
  have e1 : (q:ℝ) - ((⌊q⌋ : ℤ) : ℝ) = ((q - ⌊q⌋ : ℚ) : ℝ) := by push_cast; ring
  have e2 : (1/2 : ℝ) = ((1/2 : ℚ) : ℝ) := by norm_num
  unfold roundTE roundTEQ
  rw [hfl, e1, e2]
  by_cases h1 : q - ⌊q⌋ < 1/2
  · rw [if_pos (Rat.cast_lt.mpr h1), if_pos h1]
  · rw [if_neg (fun hc => h1 (Rat.cast_lt.mp hc)), if_neg h1]
    by_cases h2 : q - ⌊q⌋ > 1/2
    · rw [if_pos (Rat.cast_lt.mpr h2), if_pos h2]
    · rw [if_neg (fun hc => h2 (Rat.cast_lt.mp hc)), if_neg h2]

theorem pyround_ratCast (q : ℚ) (n : ℕ) :
    pyround (q : ℝ) n = ((pyroundQ q n : ℚ) : ℝ) := by
  unfold pyround pyroundQ
  have hc : ((q : ℝ) * 10 ^ n) = ((q * 10 ^ n : ℚ) : ℝ) := by push_cast; ring
  rw [hc, roundTE_ratCast]
  push_cast
  ring

theorem roundTEQ_eval_lt {x : ℚ} {N : ℤ} (h1 : (N:ℚ) ≤ x) (h2 : x < N + 1/2) :
    roundTEQ x = N := by
  have hfl : ⌊x⌋ = N := Int.floor_eq_iff.mpr ⟨h1, by linarith⟩
  unfold roundTEQ
  rw [hfl, if_pos (by linarith)]

theorem roundTEQ_eval_gt {x : ℚ} {N : ℤ} (h1 : (N:ℚ) + 1/2 < x) (h2 : x < N + 1) :
    roundTEQ x = N + 1 := by
  have hfl : ⌊x⌋ = N := Int.floor_eq_iff.mpr ⟨by linarith, by linarith⟩
  unfold roundTEQ
  rw [hfl, if_neg (by linarith), if_pos (by linarith)]

theorem pyroundQ_eval_lt {x : ℚ} {n : ℕ} {N : ℤ} (h1 : (N:ℚ) ≤ x * 10 ^ n)
    (h2 : x * 10 ^ n < N + 1/2) : pyroundQ x n = (N : ℚ) / 10 ^ n := by
  unfold pyroundQ
  rw [roundTEQ_eval_lt h1 h2]

theorem pyroundQ_eval_gt {x : ℚ} {n : ℕ} {N : ℤ} (h1 : (N:ℚ) + 1/2 < x * 10 ^ n)
    (h2 : x * 10 ^ n < N + 1) : pyroundQ x n = ((N : ℚ) + 1) / 10 ^ n := by
  unfold pyroundQ
  rw [roundTEQ_eval_gt h1 h2]
  push_cast
  ring

theorem roundTE_mono {x y : ℝ} (hxy : x ≤ y) : roundTE x ≤ roundTE y := by
  rcases lt_or_le ⌊x⌋ ⌊y⌋ with hf | hf
  · have hx : roundTE x ≤ ⌊x⌋ + 1 := by unfold roundTE; split_ifs <;> omega
    have hy : ⌊y⌋ ≤ roundTE y := by unfold roundTE; split_ifs <;> omega
    omega
  · have hfe : ⌊x⌋ = ⌊y⌋ := le_antisymm (Int.floor_le_floor hxy) hf
    unfold roundTE
    rw [hfe]
    split_ifs <;> first | omega | linarith

theorem pyround_mono {x y : ℝ} (n : ℕ) (h : x ≤ y) : pyround x n ≤ pyround y n := by
  unfold pyround
  have h10 : (0:ℝ) < 10 ^ n := by positivity
  have hm : x * 10 ^ n ≤ y * 10 ^ n := mul_le_mul_of_nonneg_right h h10.le
  have := roundTE_mono hm
  have hcast : ((roundTE (x * 10 ^ n) : ℤ) : ℝ) ≤ ((roundTE (y * 10 ^ n) : ℤ) : ℝ) := by
    exact_mod_cast this
  exact (div_le_div_iff_of_pos_right h10).mpr hcast

theorem rpow_rat_pow {x : ℚ} (hx : 0 < x) (m n : ℕ) (hn : n ≠ 0) :
    ((x ^ n : ℚ) : ℝ) ^ ((m : ℝ) / (n : ℝ)) = ((x ^ m : ℚ) : ℝ) := by
  have hxR : (0:ℝ) < (x : ℝ) := by exact_mod_cast hx
  push_cast
  rw [← Real.rpow_natCast (x:ℝ) n, ← Real.rpow_natCast (x:ℝ) m, ← Real.rpow_mul hxR.le]
  congr 1
  have hnR : (n:ℝ) ≠ 0 := Nat.cast_ne_zero.mpr hn
  field_simp

theorem cocomoCore_ok {s : String} {p : ModeParams} {kloc eaf salary : ℚ}
    (hp : COCOMO_PARAMS s = some p) (hk : 0 < kloc) (he : 0 < eaf) :
    cocomoCore kloc (some s) eaf salary =
      .ok { effort_pm := pyround (effortExact p kloc eaf) 2,
            duration_months := pyround (durationExact p (effortExact p kloc eaf)) 2,
            avg_people :=
              pyround (effortExact p kloc eaf / durationExact p (effortExact p kloc eaf)) 2,
            total_cost := pyround (effortExact p kloc eaf * (salary : ℝ)) 0,
            eaf := pyround (eaf : ℝ) 3,
            kloc := (kloc : ℝ),
            mode := pyCapitalize s } := by
  have ha := (params_pos hp).1
  have hc := (params_pos hp).2.2.1
  have hE := effortExact_pos ha hk he
  have hD := durationExact_pos hc hE
  unfold cocomoCore
  simp only [hp]
  rw [if_neg (not_lt.mpr hk.le), if_neg (not_lt.mpr hE.le), if_neg (ne_of_gt hD)]

theorem calculate_ok {s : String} {p : ModeParams} {kloc salary : ℚ}
    {ds : List (String × FormVal)}
    (hp : COCOMO_PARAMS s = some p) (hk : 0 < kloc) (hds : validDriversB ds = true) :
    calculate_cocomo kloc (some s) ds salary =
      .ok { effort_pm := pyround (effortExact p kloc (prodV ds)) 2,
            duration_months := pyround (durationExact p (effortExact p kloc (prodV ds))) 2,
            avg_people :=
              pyround (effortExact p kloc (prodV ds) /
                durationExact p (effortExact p kloc (prodV ds))) 2,
            total_cost := pyround (effortExact p kloc (prodV ds) * (salary : ℝ)) 0,
            eaf := pyround ((prodV ds : ℚ) : ℝ) 3,
            kloc := (kloc : ℝ),
            mode := pyCapitalize s } := by
  unfold calculate_cocomo
  rw [foldEAF_numeric ds 1 (validDrivers_allNumeric hds), one_mul]
  exact cocomoCore_ok hp hk (prodV_pos ds hds)

theorem validDriverPair_of_level {k : String} {dd : DriverDef} {q : ℚ}
    (hl : lookupDriver k = some dd) (h : ∃ lv ∈ dd.levels, lv.2 = q) :
    validDriverPair k (.numeric q) = true := by
  unfold validDriverPair
  rw [hl, List.any_eq_true]
  obtain ⟨lv, hm, he⟩ := h
  exact ⟨lv, hm, beq_iff_eq.mpr he⟩

theorem nominalFive_valid : validDriversB nominalFive = true := by
  simp only [validDriversB, nominalFive, List.all_cons, List.all_nil,
    Bool.and_eq_true, Bool.and_true]
  refine ⟨?_, ?_, ?_, ?_, ?_⟩
  · exact validDriverPair_of_level rfl
      ⟨("N", 1.00), List.mem_cons_of_mem _ (List.mem_cons_of_mem _ (List.mem_cons_self _ _)),
        by norm_num⟩
  · exact validDriverPair_of_level rfl
      ⟨("N", 1.00), List.mem_cons_of_mem _ (List.mem_cons_self _ _), by norm_num⟩
  · exact validDriverPair_of_level rfl
      ⟨("N", 1.00), List.mem_cons_of_mem _ (List.mem_cons_of_mem _ (List.mem_cons_self _ _)),
        by norm_num⟩
  · exact validDriverPair_of_level rfl
      ⟨("N", 1.00), List.mem_cons_of_mem _ (List.mem_cons_of_mem _ (List.mem_cons_self _ _)),
        by norm_num⟩
  · exact validDriverPair_of_level rfl
      ⟨("N", 1.00), List.mem_cons_of_mem _ (List.mem_cons_self _ _), by norm_num⟩

theorem prodV_nominalFive : prodV nominalFive = 1 := by
  simp [prodV, nominalFive, valQ]

theorem index_post_ok {f : Form} {kloc salary : ℚ} {r : CocomoResult}
    (hk : pyFloat f.kloc = .ok kloc) (hs : pyFloat f.salary = .ok salary)
    (hkpos : 0 < kloc) (hspos : 0 < salary)
    (hc : calculate_cocomo kloc f.mode (driversOf f) salary = .ok r) :
    index_post f = { results := some r, error := none } := by
  unfold index_post
  simp only [hk, hs]
  rw [if_neg (by push_neg; exact ⟨hkpos, hspos⟩)]
  simp only [hc]

theorem renderPage_cases (pg : Page) :
    renderPage pg = .ok pg ∨ renderPage pg = .error .zeroDivisionError := by
  unfold renderPage
  cases hr : pg.results with
  | none => exact Or.inl rfl
  | some r =>
    dsimp only
    by_cases hz : r.effort_pm + r.duration_months = 0
    · rw [if_pos hz]
      exact Or.inr rfl
    · rw [if_neg hz]
      exact Or.inl rfl

theorem renderPage_error_iff (pg : Page) :
    renderPage pg = .error .zeroDivisionError ↔
      ∃ r, pg.results = some r ∧ r.effort_pm + r.duration_months = 0 := by
  unfold renderPage
  cases hr : pg.results with
  | none => simp
  | some r =>
    dsimp only
    by_cases hz : r.effort_pm + r.duration_months = 0
    · rw [if_pos hz]
      simp [hz]
    · rw [if_neg hz]
      simp [hz]

/-! Claim theorems. -/

/-- C5 (confirmed): omitting a driver key from the selection yields exactly
the same engine outcome as supplying that key with the nominal multiplier
1.00, at any position, for every size, mode, labor cost and remaining
selection — the missing key is treated as nominal, never as an error. -/
theorem c5_missing_driver_is_nominal (kloc salary : ℚ) (mode : Option String)
    (k : String) (ds₁ ds₂ : List (String × FormVal)) :
    calculate_cocomo kloc mode (ds₁ ++ (k, .numeric 1) :: ds₂) salary =
      calculate_cocomo kloc mode (ds₁ ++ ds₂) salary := by
  unfold calculate_cocomo
  rw [foldEAF_insert]

/-- C9 counterexample: the fully numeric POST form c9form (size 1, salary
8000, organic mode, RELY = 5/(12*2^50), a float-parsable positive value)
passes every check inside the try/except and the engine returns a results
dict, but its effort and duration both round to 0.0, so the template chart
division total = effort_pm + duration_months, effort_pm / total — executed
by render_template_string outside the try/except — raises
ZeroDivisionError: the handler does not resolve to a rendered page. -/
theorem c9_counterexample :
    index_view c9form = .error .zeroDivisionError := by
  have hE : effortExact ⟨2.4, 1.05, 2.5, 0.38⟩ 1 q9 = ((E9 : ℚ) : ℝ) := by
    unfold effortExact
    rw [show ((1:ℚ):ℝ) = 1 by norm_num, Real.one_rpow, mul_one]
    have h : (2.4 : ℚ) * q9 = E9 := by norm_num [q9, E9]
    exact_mod_cast h
  have hD : durationExact ⟨2.4, 1.05, 2.5, 0.38⟩ ((E9 : ℚ) : ℝ) = ((D9 : ℚ) : ℝ) := by
    unfold durationExact
    have hd : ((0.38 : ℚ) : ℝ) = ((19 : ℕ) : ℝ) / ((50 : ℕ) : ℝ) := by norm_num
    rw [hd, show E9 = (1/2 : ℚ) ^ (50:ℕ) from rfl,
      rpow_rat_pow (show (0:ℚ) < 1/2 by norm_num) 19 50 (by norm_num)]
    have h : (2.5 : ℚ) * (1/2 : ℚ) ^ 19 = D9 := by norm_num [D9]
    exact_mod_cast h
  have hprod : prodV (driversOf c9form) = q9 := by
    norm_num [prodV, driversOf, c9form, valQ]
  have h1 : calculate_cocomo 1 c9form.mode (driversOf c9form) 8000 =
      cocomoCore 1 (some "organic") q9 8000 := by
    show calculate_cocomo 1 (some "organic") (driversOf c9form) 8000 = _
    unfold calculate_cocomo
    rw [foldEAF_numeric (driversOf c9form) 1 rfl, one_mul, hprod]
  have hcalc : calculate_cocomo 1 c9form.mode (driversOf c9form) 8000 =
      .ok { effort_pm := pyround (effortExact ⟨2.4, 1.05, 2.5, 0.38⟩ 1 q9) 2,
            duration_months := pyround (durationExact ⟨2.4, 1.05, 2.5, 0.38⟩
              (effortExact ⟨2.4, 1.05, 2.5, 0.38⟩ 1 q9)) 2,
            avg_people := pyround (effortExact ⟨2.4, 1.05, 2.5, 0.38⟩ 1 q9 /
              durationExact ⟨2.4, 1.05, 2.5, 0.38⟩
                (effortExact ⟨2.4, 1.05, 2.5, 0.38⟩ 1 q9)) 2,
            total_cost := pyround (effortExact ⟨2.4, 1.05, 2.5, 0.38⟩ 1 q9 *
              ((8000 : ℚ) : ℝ)) 0,
            eaf := pyround ((q9 : ℚ) : ℝ) 3,
            kloc := ((1 : ℚ) : ℝ),
            mode := pyCapitalize "organic" } := by
    rw [h1]
    exact cocomoCore_ok rfl (by norm_num) (by norm_num [q9])
  have hpage := index_post_ok (f := c9form) rfl rfl (by norm_num) (by norm_num) hcalc
  have hz : pyround (effortExact ⟨2.4, 1.05, 2.5, 0.38⟩ 1 q9) 2 +
      pyround (durationExact ⟨2.4, 1.05, 2.5, 0.38⟩
        (effortExact ⟨2.4, 1.05, 2.5, 0.38⟩ 1 q9)) 2 = 0 := by
    rw [hE, hD, pyround_ratCast, pyround_ratCast]
    have hz1 : pyroundQ E9 2 = 0 := by
      have := pyroundQ_eval_lt (x := E9) (n := 2) (N := 0)
        (by norm_num [E9]) (by norm_num [E9])
      rw [this]
      norm_num
    have hz2 : pyroundQ D9 2 = 0 := by
      have := pyroundQ_eval_lt (x := D9) (n := 2) (N := 0)
        (by norm_num [D9]) (by norm_num [D9])
      rw [this]
      norm_num
    rw [hz1, hz2]
    norm_num
  unfold index_view
  rw [hpage]
  unfold renderPage
  dsimp only
  rw [if_pos hz]

/-- C9 (corrected): the try/except of the POST branch does map every parse
failure, validation failure and engine exception to page data carrying
either results or an error message; but render_template_string runs
outside the try/except, and the template chart divides by effort_pm +
duration_months, so the view resolves to a rendered page if and only if it
is not the case that a results dict is shown whose returned effort and
duration sum to zero — in that one reachable case ZeroDivisionError
escapes the handler instead of a page. -/
theorem c9_view_renders_unless_zero_total (f : Form) :
    ((index_post f).results.isSome = true ∨ (index_post f).error.isSome = true) ∧
    (index_view f = .ok (index_post f) ∨ index_view f = .error .zeroDivisionError) ∧
    (index_view f = .error .zeroDivisionError ↔
      ∃ r, (index_post f).results = some r ∧ r.effort_pm + r.duration_months = 0) := by
  refine ⟨?_, renderPage_cases (index_post f), renderPage_error_iff (index_post f)⟩
  unfold index_post
  cases hk : pyFloat f.kloc with
  | error e => right; rfl
  | ok kloc =>
    cases hs : pyFloat f.salary with
    | error e => right; rfl
    | ok salary =>
      dsimp only
      by_cases hpos : kloc ≤ 0 ∨ salary ≤ 0
      · rw [if_pos hpos]; right; rfl
      · rw [if_neg hpos]
        cases hc : calculate_cocomo kloc f.mode (driversOf f) salary with
        | ok r => left; rfl
        | error err =>
          cases err with
          | invalidMode msg => right; rfl
          | raised pe => cases pe <;> (right; rfl)

/-- C10 (confirmed): the engine computes the EAF as the bare product of
float(value) over whatever drivers mapping it is handed — any keys, any
number of entries, any float-parsable values including zero and negative
ones — without consulting the driver catalog: the whole engine call factors
through that product. -/
theorem c10_eaf_is_bare_product (kloc salary : ℚ) (mode : Option String)
    (ds : List (String × FormVal)) (h : allNumericB ds = true) :
    foldEAF ds 1 = .ok (prodV ds) ∧
      calculate_cocomo kloc mode ds salary = cocomoCore kloc mode (prodV ds) salary := by
  have h1 : foldEAF ds 1 = .ok (prodV ds) := by
    rw [foldEAF_numeric ds 1 h, one_mul]
  refine ⟨h1, ?_⟩
  unfold calculate_cocomo
  rw [h1]

/-- C10 witness: a dict with an unknown key, the value 0 and a negative
value is accepted and folded into the product. -/
theorem c10_eaf_is_bare_product_witness :
    foldEAF c10ds 1 = .ok (prodV c10ds) ∧
      calculate_cocomo 10 (some "organic") c10ds 8000 =
        cocomoCore 10 (some "organic") (prodV c10ds) 8000 :=
  c10_eaf_is_bare_product 10 8000 (some "organic") c10ds rfl

/-- C6 counterexample: at sizeKLOC = 0 the computed duration is 0 (not
positive), and the engine raises ZeroDivisionError from the staffing
division — it does not fail with any DegenerateSchedule error (none exists
in the code). -/
theorem c6_counterexample :
    calculate_cocomo 0 (some "organic") [] 1 = .error (.raised .zeroDivisionError) := by
  have hb : ((1.05 : ℚ) : ℝ) ≠ 0 := by norm_num
  have hd : ((0.38 : ℚ) : ℝ) ≠ 0 := by norm_num
  have hE : effortExact ⟨2.4, 1.05, 2.5, 0.38⟩ 0 1 = 0 := by
    unfold effortExact
    norm_num [Real.zero_rpow hb]
  have hD : durationExact ⟨2.4, 1.05, 2.5, 0.38⟩ (0:ℝ) = 0 := by
    unfold durationExact
    norm_num [Real.zero_rpow hd]
  show cocomoCore 0 (some "organic") 1 1 = _
  unfold cocomoCore
  have hP : COCOMO_PARAMS "organic" = some ⟨2.4, 1.05, 2.5, 0.38⟩ := rfl
  simp only [hP]
  rw [if_neg (by norm_num : ¬(0:ℚ) < 0), hE, if_neg (lt_irrefl (0:ℝ)), hD,
    if_pos rfl]

/-- C6 (corrected): whenever the exactly computed duration is zero — the
only non-positive duration reachable with a nonnegative size — the engine
raises ZeroDivisionError instead of performing the staffing division; no
DegenerateSchedule error kind exists, so nothing else is reported. -/
theorem c6_zero_duration_raises (kloc salary eaf : ℚ) (s : String) (p : ModeParams)
    (ds : List (String × FormVal))
    (hfold : foldEAF ds 1 = .ok eaf)
    (hp : COCOMO_PARAMS s = some p)
    (hk : 0 ≤ kloc)
    (hE0 : effortExact p kloc eaf = 0) :
    calculate_cocomo kloc (some s) ds salary = .error (.raised .zeroDivisionError) := by
  have hdpos := (params_pos hp).2.2.2
  have hdne : ((p.d : ℚ) : ℝ) ≠ 0 := by
    have : (0:ℝ) < ((p.d : ℚ) : ℝ) := by exact_mod_cast hdpos
    exact ne_of_gt this
  have hD : durationExact p (effortExact p kloc eaf) = 0 := by
    rw [hE0]
    unfold durationExact
    rw [Real.zero_rpow hdne, mul_zero]
  unfold calculate_cocomo
  rw [hfold]
  unfold cocomoCore
  simp only [hp]
  rw [if_neg (not_lt.mpr hk), if_neg (by rw [hE0]; exact lt_irrefl (0:ℝ)), if_pos hD]

/-- C6 witness: the zero-duration case is reached at sizeKLOC = 0 and
reported as the raised division error. -/
theorem c6_zero_duration_raises_witness :
    calculate_cocomo 0 (some "organic") nominalFive 1 =
      .error (.raised .zeroDivisionError) :=
  c6_zero_duration_raises 0 1 1 "organic" ⟨2.4, 1.05, 2.5, 0.38⟩ nominalFive
    (by simp [foldEAF, nominalFive, pyFloat, mul_one]) rfl (by norm_num)
    (by unfold effortExact
        norm_num [Real.zero_rpow (show ((1.05 : ℚ) : ℝ) ≠ 0 by norm_num)])

/-- C4 counterexample: the engine itself performs no magnitude validation —
called directly with monthlyLaborCost = 0 (non-positive) it silently
returns a results dict rather than failing with any InvalidMagnitude
error. -/
theorem c4_counterexample :
    exceptOk (calculate_cocomo 1 (some "organic") nominalFive 0) = true := by
  rw [calculate_ok (s := "organic") (p := ⟨2.4, 1.05, 2.5, 0.38⟩) rfl (by norm_num) nominalFive_valid]
  rfl

/-- C4 (corrected): the non-positive size/cost check lives only in the
caller, not in the engine: the route handler rejects a parsed kloc <= 0 or
salary <= 0 with the message "KLOC and Salary must be positive numbers."
before invoking the engine, while the engine itself silently accepts a
positive size paired with a non-positive labor cost and returns a results
dict. -/
theorem c4_magnitude_checked_by_caller_only :
    (∀ (f : Form) (kloc salary : ℚ), pyFloat f.kloc = .ok kloc →
        pyFloat f.salary = .ok salary → kloc ≤ 0 ∨ salary ≤ 0 →
        index_post f = { results := none,
                         error := some "KLOC and Salary must be positive numbers." }) ∧
    (∀ (s : String) (p : ModeParams) (kloc salary : ℚ) (ds : List (String × FormVal)),
        COCOMO_PARAMS s = some p → 0 < kloc → validDriversB ds = true → salary ≤ 0 →
        exceptOk (calculate_cocomo kloc (some s) ds salary) = true) := by
  constructor
  · intro f kloc salary hk hs hneg
    unfold index_post
    simp only [hk, hs]
    rw [if_pos hneg]
  · intro s p kloc salary ds hp hkpos hds _
    rw [calculate_ok hp hkpos hds]
    rfl

/-- C4 witness: a form with KLOC 0 is rejected by the handler with the
positivity message, and the engine called directly with labor cost 0
returns a results dict. -/
theorem c4_magnitude_checked_by_caller_only_witness :
    index_post c4form = { results := none,
                          error := some "KLOC and Salary must be positive numbers." } ∧
    exceptOk (calculate_cocomo 2 (some "organic") nominalFive 0) = true :=
  ⟨c4_magnitude_checked_by_caller_only.1 c4form 0 8000 rfl rfl (Or.inl (by norm_num)),
   c4_magnitude_checked_by_caller_only.2 "organic" ⟨2.4, 1.05, 2.5, 0.38⟩ 2 0 nominalFive
     rfl (by norm_num) nominalFive_valid (by norm_num)⟩

/-- C3 counterexample: with CPLX supplied as 2.0 — not a defined CPLX
level — the engine still produces a results dict (the returned EAF field is
2.0, the out-of-catalog value multiplied in) instead of failing with any
InvalidDriverValue error; no such error exists in the code. -/
theorem c3_counterexample :
    exceptOk (calculate_cocomo 1 (some "organic") c3drivers 1) = true ∧
    eafOf (calculate_cocomo 1 (some "organic") c3drivers 1) = some ((2 : ℝ)) := by
  have hprod : prodV c3drivers = 2 := by norm_num [prodV, c3drivers, valQ]
  have h1 : calculate_cocomo 1 (some "organic") c3drivers 1 =
      cocomoCore 1 (some "organic") 2 1 := by
    unfold calculate_cocomo
    rw [foldEAF_numeric c3drivers 1 rfl, one_mul, hprod]
  rw [h1, cocomoCore_ok (s := "organic") (p := ⟨2.4, 1.05, 2.5, 0.38⟩) rfl (by norm_num) (by norm_num)]
  refine ⟨rfl, ?_⟩
  show some (pyround ((2:ℚ):ℝ) 3) = some ((2 : ℝ))
  rw [pyround_ratCast]
  have h2 : pyroundQ 2 3 = 2 := by
    rw [pyroundQ_eval_lt (N := 2000) (by norm_num) (by norm_num)]
    norm_num
  rw [h2]
  exact congrArg some (by norm_num)

/-- C3 (corrected): the engine performs no driver-value validation at all:
any positive float value supplied for CPLX — defined level or not — is
accepted, the engine returns a results dict, and the value is multiplied
into the effort adjustment factor; only values float() cannot parse fail,
with a generic exception, and no InvalidDriverValue error kind exists. -/
theorem c3_no_driver_validation (kloc salary q : ℚ) (hk : 0 < kloc) (hq : 0 < q) :
    ∃ r, calculate_cocomo kloc (some "organic")
        [("RELY", .numeric 1), ("DATA", .numeric 1), ("CPLX", .numeric q),
         ("TOOL", .numeric 1), ("VIRT", .numeric 1)] salary = .ok r ∧
      r.eaf = pyround ((q : ℚ) : ℝ) 3 := by
  have hprod : prodV [("RELY", FormVal.numeric 1), ("DATA", FormVal.numeric 1),
      ("CPLX", FormVal.numeric q), ("TOOL", FormVal.numeric 1),
      ("VIRT", FormVal.numeric 1)] = q := by
    simp [prodV, valQ]
  have h1 : calculate_cocomo kloc (some "organic")
      [("RELY", FormVal.numeric 1), ("DATA", FormVal.numeric 1),
       ("CPLX", FormVal.numeric q), ("TOOL", FormVal.numeric 1),
       ("VIRT", FormVal.numeric 1)] salary = cocomoCore kloc (some "organic") q salary := by
    unfold calculate_cocomo
    rw [foldEAF_numeric [("RELY", FormVal.numeric 1), ("DATA", FormVal.numeric 1),
      ("CPLX", FormVal.numeric q), ("TOOL", FormVal.numeric 1),
      ("VIRT", FormVal.numeric 1)] 1 rfl, one_mul, hprod]
  rw [h1, cocomoCore_ok (s := "organic") (p := ⟨2.4, 1.05, 2.5, 0.38⟩) rfl hk hq]
  exact ⟨_, rfl, rfl⟩

/-- C3 witness: CPLX = 2.0 at size 1, organic mode, labor cost 1. -/
theorem c3_no_driver_validation_witness :
    ∃ r, calculate_cocomo 1 (some "organic")
        [("RELY", .numeric 1), ("DATA", .numeric 1), ("CPLX", .numeric 2),
         ("TOOL", .numeric 1), ("VIRT", .numeric 1)] 1 = .ok r ∧
      r.eaf = pyround ((2 : ℚ) : ℝ) 3 :=
  c3_no_driver_validation 1 1 2 (by norm_num) (by norm_num)

/-- C1 counterexample: at sizeKLOC = 1, organic mode, RELY = 0.75 and
DATA = 0.94 (both defined levels) and labor cost 1, the formula value
a * sizeKLOC^b * EAF is exactly 1.692, but the engine returns
effortPersonMonths = 1.69: the returned field differs from the formula. -/
theorem c1_counterexample :
    effortOf (calculate_cocomo 1 (some "organic") c1drivers 1) = some ((1.69 : ℝ)) ∧
    effortExact ⟨2.4, 1.05, 2.5, 0.38⟩ 1 (prodV c1drivers) = ((1.692 : ℝ)) ∧
    ((1.69 : ℝ)) ≠ ((1.692 : ℝ)) := by
  have hprod : prodV c1drivers = 0.705 := by norm_num [prodV, c1drivers, valQ]
  have hEval : effortExact ⟨2.4, 1.05, 2.5, 0.38⟩ 1 (0.705 : ℚ) = ((1.692 : ℝ)) := by
    unfold effortExact
    rw [show ((1:ℚ):ℝ) = 1 by norm_num, Real.one_rpow]
    norm_num
  refine ⟨?_, by rw [hprod]; exact hEval, by norm_num⟩
  have h1 : calculate_cocomo 1 (some "organic") c1drivers 1 =
      cocomoCore 1 (some "organic") 0.705 1 := by
    unfold calculate_cocomo
    rw [foldEAF_numeric c1drivers 1 rfl, one_mul, hprod]
  rw [h1, cocomoCore_ok (s := "organic") (p := ⟨2.4, 1.05, 2.5, 0.38⟩) rfl (by norm_num) (by norm_num)]
  show some (pyround (effortExact ⟨2.4, 1.05, 2.5, 0.38⟩ 1 (0.705 : ℚ)) 2) = _
  rw [hEval, show ((1.692:ℝ)) = (((1.692:ℚ)):ℝ) by norm_num, pyround_ratCast]
  have h2 : pyroundQ 1.692 2 = 1.69 := by
    rw [pyroundQ_eval_lt (N := 169) (by norm_num) (by norm_num)]
    norm_num
  rw [h2]
  exact congrArg some (by norm_num)

/-- C1 (corrected): the mode constants are exactly the tabulated ones, and
for every valid input the engine computes effort a * sizeKLOC^b * EAF,
duration c * effort^d, staffing effort / duration and cost
effort * monthlyLaborCost from unrounded intermediates, but the returned
record carries the roundings of those values (two decimals for effort,
duration and staffing, zero for cost), not the exact formula values. -/
theorem c1_formulas_with_rounding :
    COCOMO_PARAMS "organic" = some ⟨2.4, 1.05, 2.5, 0.38⟩ ∧
    COCOMO_PARAMS "semidetached" = some ⟨3.0, 1.12, 2.5, 0.35⟩ ∧
    COCOMO_PARAMS "embedded" = some ⟨3.6, 1.20, 2.5, 0.32⟩ ∧
    ∀ (s : String) (p : ModeParams) (kloc salary : ℚ) (ds : List (String × FormVal)),
      COCOMO_PARAMS s = some p → 0 < kloc → validDriversB ds = true → 0 < salary →
      calculate_cocomo kloc (some s) ds salary =
        .ok { effort_pm := pyround (effortExact p kloc (prodV ds)) 2,
              duration_months := pyround (durationExact p (effortExact p kloc (prodV ds))) 2,
              avg_people := pyround (effortExact p kloc (prodV ds) /
                durationExact p (effortExact p kloc (prodV ds))) 2,
              total_cost := pyround (effortExact p kloc (prodV ds) * (salary : ℝ)) 0,
              eaf := pyround ((prodV ds : ℚ) : ℝ) 3,
              kloc := (kloc : ℝ),
              mode := pyCapitalize s } :=
  ⟨rfl, rfl, rfl, fun _ _ _ _ _ hp hk hds _ => calculate_ok hp hk hds⟩

/-- C1 witness: the formulas-with-rounding contract at size 10, organic
mode, all drivers nominal, labor cost 8000. -/
theorem c1_formulas_with_rounding_witness :
    calculate_cocomo 10 (some "organic") nominalFive 8000 =
      .ok { effort_pm :=
              pyround (effortExact ⟨2.4, 1.05, 2.5, 0.38⟩ 10 (prodV nominalFive)) 2,
            duration_months :=
              pyround (durationExact ⟨2.4, 1.05, 2.5, 0.38⟩
                (effortExact ⟨2.4, 1.05, 2.5, 0.38⟩ 10 (prodV nominalFive))) 2,
            avg_people := pyround (effortExact ⟨2.4, 1.05, 2.5, 0.38⟩ 10 (prodV nominalFive) /
              durationExact ⟨2.4, 1.05, 2.5, 0.38⟩
                (effortExact ⟨2.4, 1.05, 2.5, 0.38⟩ 10 (prodV nominalFive))) 2,
            total_cost := pyround (effortExact ⟨2.4, 1.05, 2.5, 0.38⟩ 10 (prodV nominalFive) *
              ((8000 : ℚ) : ℝ)) 0,
            eaf := pyround ((prodV nominalFive : ℚ) : ℝ) 3,
            kloc := ((10 : ℚ) : ℝ),
            mode := pyCapitalize "organic" } :=
  c1_formulas_with_rounding.2.2.2 "organic" ⟨2.4, 1.05, 2.5, 0.38⟩ 10 8000 nominalFive
    rfl (by norm_num) nominalFive_valid (by norm_num)

/-- C2 counterexample: with RELY = 0.88 and DATA = 0.94 the exact EAF is
0.8272, but the engine returns the EAF field 0.827: the engine rounds, so a
returned numeric field does not equal the exact value of its defining
formula. -/
theorem c2_counterexample :
    eafOf (calculate_cocomo 1 (some "organic") c2drivers 1) = some ((0.827 : ℝ)) ∧
    prodV c2drivers = ((0.8272 : ℚ)) ∧
    ((0.827 : ℝ)) ≠ ((0.8272 : ℝ)) := by
  have hprod : prodV c2drivers = 0.8272 := by norm_num [prodV, c2drivers, valQ]
  refine ⟨?_, hprod, by norm_num⟩
  have h1 : calculate_cocomo 1 (some "organic") c2drivers 1 =
      cocomoCore 1 (some "organic") 0.8272 1 := by
    unfold calculate_cocomo
    rw [foldEAF_numeric c2drivers 1 rfl, one_mul, hprod]
  rw [h1, cocomoCore_ok (s := "organic") (p := ⟨2.4, 1.05, 2.5, 0.38⟩) rfl (by norm_num) (by norm_num)]
  show some (pyround ((0.8272:ℚ):ℝ) 3) = some ((0.827 : ℝ))
  rw [pyround_ratCast]
  have h2 : pyroundQ 0.8272 3 = 0.827 := by
    rw [pyroundQ_eval_lt (N := 827) (by norm_num) (by norm_num)]
    norm_num
  rw [h2]
  exact congrArg some (by norm_num)

/-- C2 (corrected): rounding happens inside the engine, not only in the
presentation layer: for every valid input the returned record carries the
two-decimal roundings of effort, duration and staffing, the zero-decimal
rounding of cost and the three-decimal rounding of the EAF, computed from
the exact unrounded formula values. -/
theorem c2_engine_rounds (s : String) (p : ModeParams) (kloc salary : ℚ)
    (ds : List (String × FormVal))
    (hp : COCOMO_PARAMS s = some p) (hk : 0 < kloc) (hds : validDriversB ds = true) :
    ∃ r, calculate_cocomo kloc (some s) ds salary = .ok r ∧
      r.eaf = pyround ((prodV ds : ℚ) : ℝ) 3 ∧
      r.effort_pm = pyround (effortExact p kloc (prodV ds)) 2 ∧
      r.duration_months = pyround (durationExact p (effortExact p kloc (prodV ds))) 2 ∧
      r.avg_people = pyround (effortExact p kloc (prodV ds) /
        durationExact p (effortExact p kloc (prodV ds))) 2 ∧
      r.total_cost = pyround (effortExact p kloc (prodV ds) * (salary : ℝ)) 0 :=
  ⟨_, calculate_ok hp hk hds, rfl, rfl, rfl, rfl, rfl⟩

/-- C2 witness: the engine-side rounding contract at size 50, embedded
mode, all drivers nominal, labor cost 8000. -/
theorem c2_engine_rounds_witness :
    ∃ r, calculate_cocomo 50 (some "embedded") nominalFive 8000 = .ok r ∧
      r.eaf = pyround ((prodV nominalFive : ℚ) : ℝ) 3 ∧
      r.effort_pm = pyround (effortExact ⟨3.6, 1.20, 2.5, 0.32⟩ 50 (prodV nominalFive)) 2 ∧
      r.duration_months = pyround (durationExact ⟨3.6, 1.20, 2.5, 0.32⟩
        (effortExact ⟨3.6, 1.20, 2.5, 0.32⟩ 50 (prodV nominalFive))) 2 ∧
      r.avg_people = pyround (effortExact ⟨3.6, 1.20, 2.5, 0.32⟩ 50 (prodV nominalFive) /
        durationExact ⟨3.6, 1.20, 2.5, 0.32⟩
          (effortExact ⟨3.6, 1.20, 2.5, 0.32⟩ 50 (prodV nominalFive))) 2 ∧
      r.total_cost = pyround (effortExact ⟨3.6, 1.20, 2.5, 0.32⟩ 50 (prodV nominalFive) *
        ((8000 : ℚ) : ℝ)) 0 :=
  c2_engine_rounds "embedded" ⟨3.6, 1.20, 2.5, 0.32⟩ 50 8000 nominalFive
    rfl (by norm_num) nominalFive_valid

theorem c7_effort_eval :
    effortExact ⟨3.6, 1.20, 2.5, 0.32⟩ kloc7 1 = ((E7 : ℚ) : ℝ) := by
  unfold effortExact
  have hb : ((1.20 : ℚ) : ℝ) = ((6 : ℕ) : ℝ) / ((5 : ℕ) : ℝ) := by norm_num
  rw [hb, show kloc7 = u7 ^ (5:ℕ) from rfl,
    rpow_rat_pow (show (0:ℚ) < u7 by norm_num [u7]) 6 5 (by norm_num)]
  have he : (3.6 : ℚ) * u7 ^ 6 * 1 = E7 := by norm_num [u7, E7, v7]
  exact_mod_cast he

theorem c7_duration_eval :
    durationExact ⟨3.6, 1.20, 2.5, 0.32⟩ ((E7 : ℚ) : ℝ) = ((D7 : ℚ) : ℝ) := by
  unfold durationExact
  have hd : ((0.32 : ℚ) : ℝ) = ((8 : ℕ) : ℝ) / ((25 : ℕ) : ℝ) := by norm_num
  rw [hd, show E7 = v7 ^ (25:ℕ) from rfl,
    rpow_rat_pow (show (0:ℚ) < v7 by norm_num [v7]) 8 25 (by norm_num)]
  have hD : (2.5 : ℚ) * v7 ^ 8 = D7 := by norm_num [v7, D7]
  exact_mod_cast hD

/-- C7 counterexample: at size kloc7, embedded mode, all drivers nominal,
the exactly computed effort and duration are the rationals E7 and D7; the
engine returns avg 114604719983/100, effort 8082812774647641/100 and
duration 7052775/100, and the returned averageStaffing does not equal the
quotient of the returned effortPersonMonths by the returned durationMonths:
the rounded fields break the claimed identity. -/
theorem c7_counterexample :
    avgOf (calculate_cocomo kloc7 (some "embedded") nominalFive 1) =
      some ((pyroundQ (E7 / D7) 2 : ℚ) : ℝ) ∧
    effortOf (calculate_cocomo kloc7 (some "embedded") nominalFive 1) =
      some ((pyroundQ E7 2 : ℚ) : ℝ) ∧
    durationOf (calculate_cocomo kloc7 (some "embedded") nominalFive 1) =
      some ((pyroundQ D7 2 : ℚ) : ℝ) ∧
    ((pyroundQ (E7 / D7) 2 : ℚ) : ℝ) ≠
      ((pyroundQ E7 2 : ℚ) : ℝ) / ((pyroundQ D7 2 : ℚ) : ℝ) := by
  rw [calculate_ok (s := "embedded") (p := ⟨3.6, 1.20, 2.5, 0.32⟩) rfl
    (by norm_num [kloc7, u7]) nominalFive_valid, prodV_nominalFive,
    c7_effort_eval, c7_duration_eval]
  have hne : pyroundQ (E7 / D7) 2 ≠ pyroundQ E7 2 / pyroundQ D7 2 := by
    have h1 : pyroundQ (E7 / D7) 2 = ((114604719983 : ℤ) : ℚ) / 10 ^ 2 :=
      pyroundQ_eval_lt (by norm_num [E7, D7, v7]) (by norm_num [E7, D7, v7])
    have h2 : pyroundQ E7 2 = (((8082812774647640 : ℤ) : ℚ) + 1) / 10 ^ 2 :=
      pyroundQ_eval_gt (by norm_num [E7, v7]) (by norm_num [E7, v7])
    have h3 : pyroundQ D7 2 = (((7052774 : ℤ) : ℚ) + 1) / 10 ^ 2 :=
      pyroundQ_eval_gt (by norm_num [D7, v7]) (by norm_num [D7, v7])
    rw [h1, h2, h3]
    norm_num
  refine ⟨?_, ?_, ?_, ?_⟩
  · show some (pyround (((E7:ℚ):ℝ) / ((D7:ℚ):ℝ)) 2) = _
    rw [show ((E7:ℚ):ℝ) / ((D7:ℚ):ℝ) = ((E7 / D7 : ℚ) : ℝ) by push_cast; ring,
      pyround_ratCast]
  · show some (pyround ((E7:ℚ):ℝ) 2) = _
    rw [pyround_ratCast]
  · show some (pyround ((D7:ℚ):ℝ) 2) = _
    rw [pyround_ratCast]
  · intro hc
    apply hne
    have hc2 : ((pyroundQ (E7 / D7) 2 : ℚ) : ℝ) =
        ((pyroundQ E7 2 / pyroundQ D7 2 : ℚ) : ℝ) := by
      rw [Rat.cast_div]
      exact hc
    exact_mod_cast hc2

/-- C7 (corrected): staffing is consistent by construction on the exact
values: the engine divides the same unrounded effort by the same unrounded
duration whose roundings it returns — so avg * duration = effort holds
exactly pre-rounding and the returned averageStaffing is the rounding of
that quotient — but the identity does not survive to the rounded returned
fields themselves. -/
theorem c7_staffing_by_construction (s : String) (p : ModeParams) (kloc salary : ℚ)
    (ds : List (String × FormVal))
    (hp : COCOMO_PARAMS s = some p) (hk : 0 < kloc) (hds : validDriversB ds = true) :
    (effortExact p kloc (prodV ds) / durationExact p (effortExact p kloc (prodV ds))) *
        durationExact p (effortExact p kloc (prodV ds)) = effortExact p kloc (prodV ds) ∧
    ∃ r, calculate_cocomo kloc (some s) ds salary = .ok r ∧
      r.avg_people = pyround (effortExact p kloc (prodV ds) /
        durationExact p (effortExact p kloc (prodV ds))) 2 ∧
      r.effort_pm = pyround (effortExact p kloc (prodV ds)) 2 ∧
      r.duration_months = pyround (durationExact p (effortExact p kloc (prodV ds))) 2 := by
  have hE := effortExact_pos (params_pos hp).1 hk (prodV_pos ds hds)
  have hD := durationExact_pos (params_pos hp).2.2.1 hE
  exact ⟨div_mul_cancel₀ _ (ne_of_gt hD), _, calculate_ok hp hk hds, rfl, rfl, rfl⟩

/-- C7 witness: the by-construction consistency at size 10, organic mode,
all drivers nominal, labor cost 8000. -/
theorem c7_staffing_by_construction_witness :
    (effortExact ⟨2.4, 1.05, 2.5, 0.38⟩ 10 (prodV nominalFive) /
        durationExact ⟨2.4, 1.05, 2.5, 0.38⟩
          (effortExact ⟨2.4, 1.05, 2.5, 0.38⟩ 10 (prodV nominalFive))) *
        durationExact ⟨2.4, 1.05, 2.5, 0.38⟩
          (effortExact ⟨2.4, 1.05, 2.5, 0.38⟩ 10 (prodV nominalFive)) =
      effortExact ⟨2.4, 1.05, 2.5, 0.38⟩ 10 (prodV nominalFive) ∧
    ∃ r, calculate_cocomo 10 (some "organic") nominalFive 8000 = .ok r ∧
      r.avg_people = pyround (effortExact ⟨2.4, 1.05, 2.5, 0.38⟩ 10 (prodV nominalFive) /
        durationExact ⟨2.4, 1.05, 2.5, 0.38⟩
          (effortExact ⟨2.4, 1.05, 2.5, 0.38⟩ 10 (prodV nominalFive))) 2 ∧
      r.effort_pm = pyround (effortExact ⟨2.4, 1.05, 2.5, 0.38⟩ 10 (prodV nominalFive)) 2 ∧
      r.duration_months = pyround (durationExact ⟨2.4, 1.05, 2.5, 0.38⟩
        (effortExact ⟨2.4, 1.05, 2.5, 0.38⟩ 10 (prodV nominalFive))) 2 :=
  c7_staffing_by_construction "organic" ⟨2.4, 1.05, 2.5, 0.38⟩ 10 8000 nominalFive
    rfl (by norm_num) nominalFive_valid

/-- C8 counterexample: the sizes 1 < kloc8 (both valid, same organic mode,
same nominal drivers, same labor cost) are returned with the same
effortPersonMonths 2.40 — the returned effort is not strictly larger for
the strictly larger size, because the engine rounds to two decimals. -/
theorem c8_counterexample :
    (1 : ℚ) < kloc8 ∧
    effortOf (calculate_cocomo 1 (some "organic") nominalFive 1) = some (((2.4 : ℚ) : ℝ)) ∧
    effortOf (calculate_cocomo kloc8 (some "organic") nominalFive 1) =
      some (((2.4 : ℚ) : ℝ)) := by
  refine ⟨by norm_num [kloc8, u8], ?_, ?_⟩
  · rw [calculate_ok (s := "organic") (p := ⟨2.4, 1.05, 2.5, 0.38⟩) rfl (by norm_num)
      nominalFive_valid, prodV_nominalFive]
    show some (pyround (effortExact ⟨2.4, 1.05, 2.5, 0.38⟩ 1 1) 2) = _
    have h1 : effortExact ⟨2.4, 1.05, 2.5, 0.38⟩ 1 1 = (((2.4:ℚ)):ℝ) := by
      unfold effortExact
      rw [show ((1:ℚ):ℝ) = 1 by norm_num, Real.one_rpow]
      push_cast
      ring
    rw [h1, pyround_ratCast]
    have h2 : pyroundQ 2.4 2 = 2.4 := by
      have := pyroundQ_eval_lt (x := 2.4) (n := 2) (N := 240) (by norm_num) (by norm_num)
      rw [this]
      norm_num
    rw [h2]
  · rw [calculate_ok (s := "organic") (p := ⟨2.4, 1.05, 2.5, 0.38⟩) rfl
      (by norm_num [kloc8, u8]) nominalFive_valid, prodV_nominalFive]
    show some (pyround (effortExact ⟨2.4, 1.05, 2.5, 0.38⟩ kloc8 1) 2) = _
    have h1 : effortExact ⟨2.4, 1.05, 2.5, 0.38⟩ kloc8 1 = ((E8 : ℚ) : ℝ) := by
      unfold effortExact
      have hb : ((1.05 : ℚ) : ℝ) = ((21 : ℕ) : ℝ) / ((20 : ℕ) : ℝ) := by norm_num
      rw [hb, show kloc8 = u8 ^ (20:ℕ) from rfl,
        rpow_rat_pow (show (0:ℚ) < u8 by norm_num [u8]) 21 20 (by norm_num)]
      have he : (2.4 : ℚ) * u8 ^ 21 * 1 = E8 := by norm_num [E8]
      exact_mod_cast he
    rw [h1, pyround_ratCast]
    have h2 : pyroundQ E8 2 = 2.4 := by
      have := pyroundQ_eval_lt (x := E8) (n := 2) (N := 240)
        (by norm_num [E8, u8]) (by norm_num [E8, u8])
      rw [this]
      norm_num
    rw [h2]

/-- C8 (corrected): for a fixed mode, fixed valid drivers and fixed labor
cost, a strictly larger size yields strictly larger exact effort and exact
duration; the returned record fields are the roundings of these exact
values and are therefore non-decreasing, but not strictly increasing. -/
theorem c8_strict_monotone_exact (s : String) (p : ModeParams) (k₁ k₂ salary : ℚ)
    (ds : List (String × FormVal)) (hp : COCOMO_PARAMS s = some p)
    (h1 : 0 < k₁) (h12 : k₁ < k₂) (hds : validDriversB ds = true) :
    effortExact p k₁ (prodV ds) < effortExact p k₂ (prodV ds) ∧
    durationExact p (effortExact p k₁ (prodV ds)) <
      durationExact p (effortExact p k₂ (prodV ds)) ∧
    ∃ r₁ r₂, calculate_cocomo k₁ (some s) ds salary = .ok r₁ ∧
      calculate_cocomo k₂ (some s) ds salary = .ok r₂ ∧
      r₁.effort_pm ≤ r₂.effort_pm ∧ r₁.duration_months ≤ r₂.duration_months := by
  obtain ⟨ha, hb, hc, hd⟩ := params_pos hp
  have he := prodV_pos ds hds
  have haR : (0:ℝ) < ((p.a : ℚ) : ℝ) := by exact_mod_cast ha
  have heR : (0:ℝ) < ((prodV ds : ℚ) : ℝ) := by exact_mod_cast he
  have hbR : (0:ℝ) < ((p.b : ℚ) : ℝ) := by exact_mod_cast hb
  have hk1R : (0:ℝ) ≤ ((k₁ : ℚ) : ℝ) := by exact_mod_cast h1.le
  have h12R : ((k₁ : ℚ) : ℝ) < ((k₂ : ℚ) : ℝ) := by exact_mod_cast h12
  have hrk : ((k₁:ℚ):ℝ) ^ ((p.b:ℚ):ℝ) < ((k₂:ℚ):ℝ) ^ ((p.b:ℚ):ℝ) :=
    Real.rpow_lt_rpow hk1R h12R hbR
  have hEE : effortExact p k₁ (prodV ds) < effortExact p k₂ (prodV ds) := by
    unfold effortExact
    exact mul_lt_mul_of_pos_right (mul_lt_mul_of_pos_left hrk haR) heR
  have hE1 := effortExact_pos ha h1 he
  have hcR : (0:ℝ) < ((p.c : ℚ) : ℝ) := by exact_mod_cast hc
  have hdR : (0:ℝ) < ((p.d : ℚ) : ℝ) := by exact_mod_cast hd
  have hDD : durationExact p (effortExact p k₁ (prodV ds)) <
      durationExact p (effortExact p k₂ (prodV ds)) := by
    unfold durationExact
    exact mul_lt_mul_of_pos_left (Real.rpow_lt_rpow hE1.le hEE hdR) hcR
  exact ⟨hEE, hDD, _, _, calculate_ok hp h1 hds, calculate_ok hp (h1.trans h12) hds,
    pyround_mono 2 hEE.le, pyround_mono 2 hDD.le⟩

/-- C8 witness: strict exact monotonicity and non-decreasing returned
fields between sizes 10 and 20, organic mode, nominal drivers. -/
theorem c8_strict_monotone_exact_witness :
    effortExact ⟨2.4, 1.05, 2.5, 0.38⟩ 10 (prodV nominalFive) <
      effortExact ⟨2.4, 1.05, 2.5, 0.38⟩ 20 (prodV nominalFive) ∧
    durationExact ⟨2.4, 1.05, 2.5, 0.38⟩
        (effortExact ⟨2.4, 1.05, 2.5, 0.38⟩ 10 (prodV nominalFive)) <
      durationExact ⟨2.4, 1.05, 2.5, 0.38⟩
        (effortExact ⟨2.4, 1.05, 2.5, 0.38⟩ 20 (prodV nominalFive)) ∧
    ∃ r₁ r₂, calculate_cocomo 10 (some "organic") nominalFive 8000 = .ok r₁ ∧
      calculate_cocomo 20 (some "organic") nominalFive 8000 = .ok r₂ ∧
      r₁.effort_pm ≤ r₂.effort_pm ∧ r₁.duration_months ≤ r₂.duration_months :=
  c8_strict_monotone_exact "organic" ⟨2.4, 1.05, 2.5, 0.38⟩ 10 20 8000 nominalFive
    rfl (by norm_num) (by norm_num) nominalFive_valid

end Cocomo
